import Mathlib

/-!
Shallow embedding of the `sparql-http-benchmark` core (src/benchmark.py and
src/factory.py), together with theorems checking the natural-language
specification against it.

Modelling conventions:
- Python `bytes` is a list of byte values; `bytes | None` is `Option`.
- Python `float` elapsed times are embedded as rationals `ℚ`; the spec states
  exact arithmetic identities, which we check over exact arithmetic.
- A raised Python exception is the `Except.error` branch; fallible functions
  return `Except Err _` or `Option _`.
- Network calls are replaced by an oracle (`Strategy`): for each call index the
  oracle says whether the call raises, and otherwise which payload and elapsed
  time it returns.  `random.shuffle` is modelled as an environment-supplied
  reordering of the package list.
-/

namespace Bench

/-- Python `bytes`: a byte string, one natural number per byte. -/
abbrev Bytes := List Nat

/-- Python `bytes | None`: the payload component of a raw sample. -/
abbrev Payload := Option Bytes

/-- One raw measurement `(payload, elapsed)` as appended by the invocation
loops in `factory.py`; elapsed seconds are embedded as rationals. -/
abbrev Sample := Payload × ℚ

/-- A raised exception (transport failure, setup failure, or an arithmetic
error inside `calculate_result`).  The harness never inspects the exception
value, so one constructor suffices. -/
inductive Err where
  | exn
deriving DecidableEq, Repr

/-- Modelled from the spec: `BenchmarkResult` (the SummaryRecord of spec §3) is
imported by `benchmark.py` from `model.py`, which is not among the source
files; its fields are exactly the ones constructed in `calculate_result`
(src/benchmark.py lines 53-62) and written out by `save_results`. -/
structure BenchmarkResult where
  library : String
  operation : String
  query_name : String
  requests_per_sec : ℚ
  total_time : ℚ
  avg_request_time : ℚ
  response_size_bytes : Nat
  success_rate : ℚ
deriving DecidableEq, Repr

/-- Python `r is not None` where `r` ranges over the elements of
`results : list[tuple[bytes | None, float]]` (src/benchmark.py line 50): an
element is a tuple, and a tuple is never `None`, so the test is `True` for
every element. -/
def tupleIsNotNone (_r : Sample) : Bool := true

/-- Python truthiness of a `bytes | None` value: `None` is falsy and the empty
byte string `b""` is falsy; any non-empty byte string is truthy. -/
def bytesTruthy : Payload → Bool
  | none => false
  | some b => !b.isEmpty

/-- Python `len` on a payload that is a byte string (`len(None)` is never
reached: the call sites guard with truthiness first). -/
def pyLen : Payload → Nat
  | none => 0
  | some b => b.length

/-- The mutating operation kinds tested on src/benchmark.py line 50. -/
def mutatingOps : List String := ["INSERT", "DELETE", "UPDATE"]

/-- `calculate_result` (src/benchmark.py lines 41-62).  `none` models the
exception the Python code raises: `results[0]` on line 51 raises `IndexError`
on an empty list, and `len(results) / total_time` on line 57 raises
`ZeroDivisionError` when the elapsed times sum to zero. -/
def calculate_result (library operation query_name : String)
    (results : List Sample) : Option BenchmarkResult :=
  let times := results.map (fun r => r.2)
  let total_time := times.sum
  let successful :=
    (results.filter (fun r => tupleIsNotNone r || mutatingOps.contains operation)).length
  match results with
  | [] => none
  | r0 :: _ =>
    let response_size := if bytesTruthy r0.1 then pyLen r0.1 else 0
    if total_time = 0 then none
    else some {
      library := library
      operation := operation
      query_name := query_name
      requests_per_sec := (results.length : ℚ) / total_time
      total_time := total_time
      avg_request_time := total_time / (results.length : ℚ)
      response_size_bytes := response_size
      success_rate := (successful : ℚ) / (results.length : ℚ) }

example :
    calculate_result "httpx_sync" "SELECT" "q" [(some [1, 2, 3], 2), (none, 2)] =
      some { library := "httpx_sync", operation := "SELECT", query_name := "q",
             requests_per_sec := 1/2, total_time := 4, avg_request_time := 2,
             response_size_bytes := 3, success_rate := 1 } := by
  simp [calculate_result, mutatingOps, tupleIsNotNone, bytesTruthy, pyLen]
  norm_num

example : calculate_result "x" "SELECT" "q" [] = none := by
  simp [calculate_result]

example : calculate_result "x" "SELECT" "q" [(none, 0)] = none := by
  simp [calculate_result]

/-- Oracle for one strategy instance (one `package_class()` object of
src/factory.py): whether `setup` raises, and for every call index the outcome
of the `query` / `update` method.  `query` takes the sparql text and the
`is_construct` flag and returns `(response_body, elapsed)`; `update` takes the
sparql text and returns the elapsed time, discarding the payload. -/
structure Strategy where
  setupOk : Bool
  query : String → Bool → Nat → Except Err (Bytes × ℚ)
  update : String → Nat → Except Err ℚ

/-- The body of one iteration of the loops in `run_sync_package` /
`run_async_package` (src/factory.py lines 285-291 and 303-309): in update mode
call `update` and append `(None, elapsed)`, otherwise call `query` and append
`(content, elapsed)`. -/
def loopIter (s : Strategy) (sparql : String) (is_construct is_update : Bool)
    (i : Nat) : Except Err Sample :=
  if is_update then
    match s.update sparql i with
    | .error e => .error e
    | .ok elapsed => .ok (none, elapsed)
  else
    match s.query sparql is_construct i with
    | .error e => .error e
    | .ok ce => .ok (some ce.1, ce.2)

/-- The `for _ in range(iterations)` loop of `run_sync_package` /
`run_async_package`, starting at call index `i` with `n` iterations left.  A
raised exception propagates immediately; otherwise the samples are collected
in call order. -/
def runLoop (s : Strategy) (sparql : String) (is_construct is_update : Bool) :
    Nat → Nat → Except Err (List Sample)
  | _, 0 => .ok []
  | i, Nat.succ n =>
    match loopIter s sparql is_construct is_update i with
    | .error e => .error e
    | .ok smp =>
      match runLoop s sparql is_construct is_update (i + 1) n with
      | .error e => .error e
      | .ok rest => .ok (smp :: rest)

/-- The observable outcome of one `run_sync_package` / `run_async_package`
call: how often `setup` and `teardown` were invoked on the package, and either
the returned sample list or the exception that propagated out. -/
structure RunOutcome where
  setupCalls : Nat
  teardownCalls : Nat
  result : Except Err (List Sample)
deriving Repr

/-- `run_sync_package` (src/factory.py lines 279-294).  `package.setup()` is
always called once; the body has no `try`/`finally`, so `package.teardown()`
runs only when `setup` and all `iterations` calls return without raising. -/
def run_sync_package (s : Strategy) (sparql : String)
    (is_construct is_update : Bool) (iterations : Nat) : RunOutcome :=
  if s.setupOk then
    match runLoop s sparql is_construct is_update 0 iterations with
    | .error e => { setupCalls := 1, teardownCalls := 0, result := .error e }
    | .ok samples => { setupCalls := 1, teardownCalls := 1, result := .ok samples }
  else
    { setupCalls := 1, teardownCalls := 0, result := .error .exn }

/-- `run_async_package` (src/factory.py lines 297-312): line for line the same
control flow as `run_sync_package` with `await` on each call; the cooperative
scheduler drives it sequentially (spec §5), so its sequential embedding is the
same function. -/
def run_async_package (s : Strategy) (sparql : String)
    (is_construct is_update : Bool) (iterations : Nat) : RunOutcome :=
  if s.setupOk then
    match runLoop s sparql is_construct is_update 0 iterations with
    | .error e => { setupCalls := 1, teardownCalls := 0, result := .error e }
    | .ok samples => { setupCalls := 1, teardownCalls := 1, result := .ok samples }
  else
    { setupCalls := 1, teardownCalls := 0, result := .error .exn }

/-- A strategy whose calls always succeed, returning payload `[1]` and elapsed
time `1`; used for concrete witnesses. -/
def okStrat : Strategy where
  setupOk := true
  query := fun _ _ _ => .ok ([1], 1)
  update := fun _ _ => .ok 1

/-- A strategy whose `setup` succeeds but whose every call raises; used for
concrete counterexamples. -/
def failStrat : Strategy where
  setupOk := true
  query := fun _ _ _ => .error .exn
  update := fun _ _ => .error .exn

example : (run_sync_package okStrat "q" false false 2).result =
    .ok [(some [1], 1), (some [1], 1)] := by
  simp [run_sync_package, runLoop, loopIter, okStrat]

example : (run_sync_package failStrat "q" false false 2).teardownCalls = 0 := by
  simp [run_sync_package, runLoop, loopIter, failStrat]

example : (run_sync_package okStrat "u" false true 2).result =
    .ok [(none, 1), (none, 1)] := by
  simp [run_sync_package, runLoop, loopIter, okStrat]

/-- A package class of src/factory.py, reduced to what the scheduler reads
from it: its `name` attribute.  The behaviour of the fresh instance that
`run_sync_package` / `run_async_package` constructs from the class is supplied
by the environment (`Env.strategyFor`). -/
structure PackageClass where
  name : String
deriving DecidableEq, Repr

def HttpxSyncPackage : PackageClass := ⟨"httpx_sync"⟩

def RequestsPackage : PackageClass := ⟨"requests"⟩

def Urllib3Package : PackageClass := ⟨"urllib3"⟩

def PycurlPackage : PackageClass := ⟨"pycurl"⟩

def HttpxAsyncPackage : PackageClass := ⟨"httpx_async"⟩

def AiohttpPackage : PackageClass := ⟨"aiohttp"⟩

/-- `SYNC_PACKAGES` (src/factory.py line 275). -/
def SYNC_PACKAGES : List PackageClass :=
  [HttpxSyncPackage, RequestsPackage, Urllib3Package, PycurlPackage]

/-- `ASYNC_PACKAGES` (src/factory.py line 276). -/
def ASYNC_PACKAGES : List PackageClass := [HttpxAsyncPackage, AiohttpPackage]

/-- `NUM_RUNS` (src/benchmark.py line 20). -/
def NUM_RUNS : Nat := 11

/-- `ITERATIONS_PER_QUERY` (src/benchmark.py line 21). -/
def ITERATIONS_PER_QUERY : Nat := 50

/-- One catalog entry value of src/queries.py: operation kind and request
body. -/
structure QueryInfo where
  operation : String
  sparql : String
deriving DecidableEq, Repr

/-- `BASE` (src/queries.py line 1). -/
def BASE : String := "http://example.org/"

/-- `GRAPH` (src/queries.py line 2). -/
def GRAPH : String := "http://example.org/benchmark"

/-- The 100 benchmark triples interpolated into the INSERT/DELETE bodies
(src/queries.py lines 47-50 and 60-63). -/
def benchmarkTriples : String :=
  String.intercalate " " ((List.range 100).map (fun i =>
    "<" ++ BASE ++ "benchmark/entity/" ++ toString i ++ "> <" ++ BASE ++
      "benchmarkValue> " ++ toString i ++ " ."))

/-- `QUERIES` (src/queries.py lines 4-39), as the insertion-ordered list of
its entries; the multi-line bodies are whitespace-condensed, which no claim
inspects. -/
def QUERIES : List (String × QueryInfo) :=
  [("select_simple",
    { operation := "SELECT",
      sparql := "SELECT ?s ?p ?o WHERE \x7b ?s ?p ?o \x7d LIMIT 100" }),
   ("select_filter",
    { operation := "SELECT",
      sparql := "SELECT ?s ?value WHERE \x7b ?s <" ++ BASE ++
        "value> ?value . FILTER(?value > 500) \x7d LIMIT 100" }),
   ("select_optional",
    { operation := "SELECT",
      sparql := "SELECT ?s ?label WHERE \x7b ?s a <" ++ BASE ++
        "Entity> . OPTIONAL \x7b ?s <http://www.w3.org/2000/01/rdf-schema#label> ?label \x7d \x7d LIMIT 100" }),
   ("ask",
    { operation := "ASK",
      sparql := "ASK \x7b <" ++ BASE ++ "entity/1> ?p ?o \x7d" }),
   ("construct",
    { operation := "CONSTRUCT",
      sparql := "CONSTRUCT \x7b ?s ?p ?o \x7d WHERE \x7b ?s a <" ++ BASE ++
        "Entity> ; ?p ?o \x7d LIMIT 100" })]

/-- `UPDATES` (src/queries.py lines 41-80), as the insertion-ordered list of
its entries. -/
def UPDATES : List (String × QueryInfo) :=
  [("insert_data",
    { operation := "INSERT",
      sparql := "INSERT DATA \x7b GRAPH <" ++ GRAPH ++ "> \x7b " ++
        benchmarkTriples ++ " \x7d \x7d" }),
   ("delete_data",
    { operation := "DELETE",
      sparql := "DELETE DATA \x7b GRAPH <" ++ GRAPH ++ "> \x7b " ++
        benchmarkTriples ++ " \x7d \x7d" }),
   ("update",
    { operation := "UPDATE",
      sparql := "WITH <" ++ GRAPH ++ "> DELETE \x7b ?s <" ++ BASE ++
        "benchmarkValue> ?old \x7d INSERT \x7b ?s <" ++ BASE ++
        "benchmarkValue> ?new \x7d WHERE \x7b ?s <" ++ BASE ++
        "benchmarkValue> ?old . BIND(?old + 1 AS ?new) \x7d" })]

/-- The world the scheduler runs in: for every (run, package name, entry name)
triple the behaviour of the fresh package instance that invocation constructs,
and the reordering that `random.shuffle` produces on each run for the sync and
the async package lists (two independent permutations per run, spec §4.2). -/
structure Env where
  strategyFor : Nat → String → String → Strategy
  shuffleSync : Nat → List PackageClass → List PackageClass
  shuffleAsync : Nat → List PackageClass → List PackageClass

/-- The `if run > 0: all_results.append(calculate_result(...))` step of
`run_benchmark` (src/benchmark.py lines 91-97 etc.): on the warmup run nothing
is computed or appended; otherwise `calculate_result` runs, and an exception
inside it propagates. -/
def recordFor (run : Nat) (pkgName entryName : String) (info : QueryInfo)
    (results : List Sample) : Except Err (List BenchmarkResult) :=
  if 0 < run then
    match calculate_result pkgName info.operation entryName results with
    | none => .error .exn
    | some r => .ok [r]
  else .ok []

/-- One inner entry loop of `run_benchmark` (the four loops on
src/benchmark.py lines 83-97, 99-112, 117-131, 133-146 share this shape):
for each catalog entry, run the package for `ITERATIONS_PER_QUERY` iterations
and, past the warmup run, append the computed record.  `runPkg` is
`run_sync_package` or `run_async_package`; `isConstructOf` is
`info.operation == "CONSTRUCT"` in the query loops and constantly `false` in
the update loops. -/
def entryRecords (runPkg : Strategy → String → Bool → Bool → Nat → RunOutcome)
    (env : Env) (run : Nat) (pkg : PackageClass)
    (isConstructOf : QueryInfo → Bool) (is_update : Bool) :
    List (String × QueryInfo) → Except Err (List BenchmarkResult)
  | [] => .ok []
  | (ename, info) :: rest =>
    match (runPkg (env.strategyFor run pkg.name ename) info.sparql
        (isConstructOf info) is_update ITERATIONS_PER_QUERY).result with
    | .error e => .error e
    | .ok results =>
      match recordFor run pkg.name ename info results with
      | .error e => .error e
      | .ok here =>
        match entryRecords runPkg env run pkg isConstructOf is_update rest with
        | .error e => .error e
        | .ok more => .ok (here ++ more)

/-- One package loop of `run_benchmark` (src/benchmark.py lines 80-112 for the
sync packages, 114-146 for the async ones): per package, the query entries and
then the update entries. -/
def packageRecords (runPkg : Strategy → String → Bool → Bool → Nat → RunOutcome)
    (env : Env) (run : Nat) (queries updates : List (String × QueryInfo)) :
    List PackageClass → Except Err (List BenchmarkResult)
  | [] => .ok []
  | pkg :: rest =>
    match entryRecords runPkg env run pkg
        (fun info => info.operation == "CONSTRUCT") false queries with
    | .error e => .error e
    | .ok a =>
      match entryRecords runPkg env run pkg (fun _ => false) true updates with
      | .error e => .error e
      | .ok b =>
        match packageRecords runPkg env run queries updates rest with
        | .error e => .error e
        | .ok c => .ok (a ++ b ++ c)

/-- One benchmark run of `run_benchmark`: the shuffled sync packages, then the
shuffled async packages. -/
def runOnce (env : Env) (queries updates : List (String × QueryInfo))
    (run : Nat) : Except Err (List BenchmarkResult) :=
  match packageRecords run_sync_package env run queries updates
      (env.shuffleSync run SYNC_PACKAGES) with
  | .error e => .error e
  | .ok s =>
    match packageRecords run_async_package env run queries updates
        (env.shuffleAsync run ASYNC_PACKAGES) with
    | .error e => .error e
    | .ok a => .ok (s ++ a)

/-- The `for run in range(NUM_RUNS)` loop of `run_benchmark`, starting at run
index `run` with `n` runs left, concatenating the emitted records in order. -/
def runsFrom (env : Env) (queries updates : List (String × QueryInfo)) :
    Nat → Nat → Except Err (List BenchmarkResult)
  | _, 0 => .ok []
  | run, Nat.succ n =>
    match runOnce env queries updates run with
    | .error e => .error e
    | .ok here =>
      match runsFrom env queries updates (run + 1) n with
      | .error e => .error e
      | .ok rest => .ok (here ++ rest)

/-- `run_benchmark` (src/benchmark.py lines 65-148), generalized over the
catalog lists it iterates (the code reads the module-level `QUERIES` and
`UPDATES`); an exception anywhere propagates out and the accumulated list is
lost. -/
def run_benchmark (env : Env) (queries updates : List (String × QueryInfo)) :
    Except Err (List BenchmarkResult) :=
  runsFrom env queries updates 0 NUM_RUNS

/-! ## Helper lemmas about `calculate_result` -/

theorem calc_result_nil (library operation query_name : String) :
    calculate_result library operation query_name [] = none := rfl

theorem calc_result_cons_of_sum_ne (library operation query_name : String)
    (r0 : Sample) (rest : List Sample)
    (h : (((r0 :: rest).map (fun x => x.2)).sum : ℚ) ≠ 0) :
    calculate_result library operation query_name (r0 :: rest) =
      some { library := library, operation := operation, query_name := query_name,
             requests_per_sec :=
               ((r0 :: rest).length : ℚ) / ((r0 :: rest).map (fun x => x.2)).sum,
             total_time := ((r0 :: rest).map (fun x => x.2)).sum,
             avg_request_time :=
               (((r0 :: rest).map (fun x => x.2)).sum) / ((r0 :: rest).length : ℚ),
             response_size_bytes := if bytesTruthy r0.1 then pyLen r0.1 else 0,
             success_rate := ((r0 :: rest).length : ℚ) / ((r0 :: rest).length : ℚ) } := by
  have hfilter :
      (r0 :: rest).filter (fun r => tupleIsNotNone r || mutatingOps.contains operation) =
        r0 :: rest := by
    simp [tupleIsNotNone]
  simp only [calculate_result, hfilter, if_neg h]

/-- Whenever `calculate_result` returns a record, the sample list is non-empty
and the elapsed times do not sum to zero, and the record is the one built on
src/benchmark.py lines 53-62. -/
theorem calc_result_some_inv (library operation query_name : String)
    (results : List Sample) (r : BenchmarkResult)
    (h : calculate_result library operation query_name results = some r) :
    ∃ r0 rest, results = r0 :: rest ∧
      ((results.map (fun x => x.2)).sum : ℚ) ≠ 0 ∧
      r = { library := library, operation := operation, query_name := query_name,
            requests_per_sec := (results.length : ℚ) / (results.map (fun x => x.2)).sum,
            total_time := (results.map (fun x => x.2)).sum,
            avg_request_time := ((results.map (fun x => x.2)).sum) / (results.length : ℚ),
            response_size_bytes := if bytesTruthy r0.1 then pyLen r0.1 else 0,
            success_rate := (results.length : ℚ) / (results.length : ℚ) } := by
  match results with
  | [] => exact absurd h (by simp [calculate_result])
  | r0 :: rest =>
    by_cases h0 : (((r0 :: rest).map (fun x => x.2)).sum : ℚ) = 0
    · rw [calculate_result] at h
      simp only [h0] at h
      simp at h
    · rw [calc_result_cons_of_sum_ne library operation query_name r0 rest h0] at h
      exact ⟨r0, rest, rfl, h0, (Option.some.injEq _ _).mp h.symm⟩

theorem list_sum_const_rat (l : List ℚ) (c : ℚ) (h : ∀ x ∈ l, x = c) :
    l.sum = (l.length : ℚ) * c := by
  rw [List.sum_eq_card_nsmul l c h, nsmul_eq_mul]

/-! ## Claims -/

/-- C1: the spec states that for read operations `successRate` equals the
number of payload-present samples over `k` (so `0.0` when no payload is
present).  The code evaluates `r is not None` on the whole sample tuple
(src/benchmark.py line 50), which is always true, so on the failing input — a
SELECT sample list whose single payload is absent — it produces
`successRate = 1.0` where the spec requires `0.0`.  This theorem evaluates the
code at that input. -/
theorem calc_result_select_absent_payload_eval :
    (calculate_result "httpx_sync" "SELECT" "select_simple" [(none, 1)]).map
      (fun r => r.success_rate) = some 1 := by
  rw [calc_result_cons_of_sum_ne "httpx_sync" "SELECT" "select_simple" (none, 1) []
    (by norm_num)]
  norm_num

/-- C9: whenever `calculate_result` returns a record — for any operation kind,
read or write — its `success_rate` is `1`, because the success test
`r is not None` is applied to the whole `(payload, elapsed)` tuple, which is
never `None`. -/
theorem calc_result_success_rate_eq_one (library operation query_name : String)
    (results : List Sample) (r : BenchmarkResult)
    (h : calculate_result library operation query_name results = some r) :
    r.success_rate = 1 := by
  obtain ⟨r0, rest, rfl, hsum, rfl⟩ :=
    calc_result_some_inv library operation query_name results r h
  have hlen0 : (((r0 :: rest).length : ℚ)) ≠ 0 := by
    simp only [List.length_cons]
    exact_mod_cast Nat.succ_ne_zero rest.length
  exact div_self hlen0

/-- Witness for C9 at a concrete input: a SELECT sample list with an absent
payload still yields `success_rate = 1`. -/
theorem calc_result_success_rate_eq_one_witness :
    ({ library := "l", operation := "SELECT", query_name := "q",
       requests_per_sec := 1, total_time := 1, avg_request_time := 1,
       response_size_bytes := 0, success_rate := 1 } : BenchmarkResult).success_rate = 1 :=
  calc_result_success_rate_eq_one "l" "SELECT" "q" [(none, 1)] _
    (by rw [calc_result_cons_of_sum_ne "l" "SELECT" "q" (none, 1) [] (by norm_num)]
        norm_num [bytesTruthy])

/-- C7: for a non-empty sample list, `responseSizeBytes` is the byte length of
the first sample's payload when present and `0` when absent; the samples after
the first do not occur in the right-hand side, so they never affect it. -/
theorem calc_result_response_size_first (library operation query_name : String)
    (p : Payload) (t : ℚ) (rest : List Sample) (r : BenchmarkResult)
    (h : calculate_result library operation query_name ((p, t) :: rest) = some r) :
    r.response_size_bytes = pyLen p := by
  obtain ⟨r0, rest0, heq, hsum, rfl⟩ :=
    calc_result_some_inv library operation query_name ((p, t) :: rest) r h
  obtain ⟨rfl, rfl⟩ : r0 = (p, t) ∧ rest0 = rest := by
    constructor <;> injection heq <;> simp_all
  match p with
  | none => rfl
  | some b =>
    match b with
    | [] => rfl
    | x :: xs => rfl

/-- Witness for C7 at concrete inputs: a present first payload of three bytes
gives `response_size_bytes = 3`, where the second sample's payload is longer. -/
theorem calc_result_response_size_first_witness :
    ({ library := "l", operation := "SELECT", query_name := "q",
       requests_per_sec := 1, total_time := 2, avg_request_time := 1,
       response_size_bytes := 3, success_rate := 1 } : BenchmarkResult).response_size_bytes =
      pyLen (some [7, 8, 9]) :=
  calc_result_response_size_first "l" "SELECT" "q" (some [7, 8, 9]) 1
    [(some [1, 2, 3, 4, 5], 1)] _
    (by rw [calc_result_cons_of_sum_ne "l" "SELECT" "q" (some [7, 8, 9], 1)
          [(some [1, 2, 3, 4, 5], 1)] (by norm_num)]
        norm_num [bytesTruthy, pyLen])

/-- C8: under the precondition of a non-empty sample list whose elapsed times
sum to a positive value, `calculate_result` returns a record (its divisions by
`total_time` and by `len(results)` and its access to `results[0]` are
well-defined); on zero samples the computation is undefined — the embedding
returns `none`, modelling the raised `IndexError`. -/
theorem calc_result_total_on_valid_input (library operation query_name : String)
    (results : List Sample) (hne : results ≠ [])
    (hpos : 0 < ((results.map (fun x => x.2)).sum : ℚ)) :
    (∃ r, calculate_result library operation query_name results = some r) ∧
      calculate_result library operation query_name [] = none := by
  refine ⟨?_, rfl⟩
  match results with
  | [] => exact absurd rfl hne
  | r0 :: rest =>
    exact ⟨_, calc_result_cons_of_sum_ne library operation query_name r0 rest hpos.ne'⟩

/-- Witness for C8 at a concrete input. -/
theorem calc_result_total_on_valid_input_witness :
    (∃ r, calculate_result "l" "ASK" "ask" [(some [1], 2)] = some r) ∧
      calculate_result "l" "ASK" "ask" [] = none :=
  calc_result_total_on_valid_input "l" "ASK" "ask" [(some [1], 2)]
    (by simp) (by norm_num)

/-- C5: on a sample list of `k ≥ 1` samples, each with the same positive
elapsed time `e` and a present payload of byte length `s`, the aggregator
yields `requestsPerSec = 1/e`, `avgRequestTimeSeconds = e`,
`totalTimeSeconds = k·e` and `responseSizeBytes = s`. -/
theorem calc_result_constant_stub (library operation query_name : String)
    (results : List Sample) (k : Nat) (e : ℚ) (s : Nat)
    (hlen : results.length = k) (hk : 1 ≤ k) (he : 0 < e)
    (hconst : ∀ x ∈ results, x.2 = e ∧ ∃ b, x.1 = some b ∧ b.length = s) :
    ∃ r, calculate_result library operation query_name results = some r ∧
      r.requests_per_sec = 1 / e ∧ r.avg_request_time = e ∧
      r.total_time = (k : ℚ) * e ∧ r.response_size_bytes = s := by
  match results with
  | [] => simp at hlen; omega
  | r0 :: rest =>
    have hk0 : ((k : ℚ)) ≠ 0 := by
      have : (0 : ℕ) < k := hk
      positivity
    have hsum : (((r0 :: rest).map (fun x => x.2)).sum : ℚ) = (k : ℚ) * e := by
      rw [list_sum_const_rat _ e (by
        intro x hx
        obtain ⟨y, hy, rfl⟩ := List.mem_map.mp hx
        exact (hconst y hy).1)]
      rw [List.length_map, hlen]
    have hne : (((r0 :: rest).map (fun x => x.2)).sum : ℚ) ≠ 0 := by
      rw [hsum]; positivity
    refine ⟨_, calc_result_cons_of_sum_ne library operation query_name r0 rest hne,
      ?_, ?_, ?_, ?_⟩
    · show ((r0 :: rest).length : ℚ) / _ = 1 / e
      rw [hsum, hlen]
      rw [div_eq_div_iff (mul_ne_zero hk0 he.ne') he.ne']
      ring
    · show _ / ((r0 :: rest).length : ℚ) = e
      rw [hsum, hlen, mul_comm, mul_div_assoc, div_self hk0, mul_one]
    · show (((r0 :: rest).map (fun x => x.2)).sum : ℚ) = (k : ℚ) * e
      exact hsum
    · show (if bytesTruthy r0.1 then pyLen r0.1 else 0) = s
      obtain ⟨-, b, hb, hbs⟩ := hconst r0 (List.mem_cons_self r0 rest)
      rw [hb]
      match b, hbs with
      | [], rfl => rfl
      | x :: xs, rfl => rfl

/-- Witness for C5 at a concrete input: `k = 2`, `e = 3`, `s = 2`. -/
theorem calc_result_constant_stub_witness :
    ∃ r, calculate_result "l" "SELECT" "q" [(some [10, 20], 3), (some [30, 40], 3)] =
        some r ∧
      r.requests_per_sec = 1 / 3 ∧ r.avg_request_time = 3 ∧
      r.total_time = (2 : ℚ) * 3 ∧ r.response_size_bytes = 2 :=
  calc_result_constant_stub "l" "SELECT" "q"
    [(some [10, 20], 3), (some [30, 40], 3)] 2 3 2 (by simp) (by norm_num)
    (by norm_num) (by intro x hx; fin_cases hx <;> simp)

/-! ## Helper lemmas about the invocation loops -/

/-- `true` iff an `Except` value is the success branch. -/
def exOk {α : Type} : Except Err α → Bool
  | .ok _ => true
  | .error _ => false

theorem runLoop_ok (s : Strategy) (sparql : String) (c u : Bool) (f : Nat → Sample) :
    ∀ (n i : Nat), (∀ j, j < n → loopIter s sparql c u (i + j) = .ok (f (i + j))) →
      runLoop s sparql c u i n = .ok ((List.range n).map (fun j => f (i + j)))
  | 0, i, _ => by simp [runLoop]
  | Nat.succ n, i, h => by
    have h0 : loopIter s sparql c u i = .ok (f i) := by
      have := h 0 (Nat.succ_pos n)
      simpa using this
    have hrec := runLoop_ok s sparql c u f n (i + 1) (fun j hj => by
      have := h (j + 1) (Nat.succ_lt_succ hj)
      have hij : i + (j + 1) = i + 1 + j := by omega
      rwa [hij] at this)
    rw [runLoop, h0, hrec]
    show Except.ok (f i :: (List.range n).map (fun j => f (i + 1 + j))) =
      Except.ok ((List.range (n + 1)).map (fun j => f (i + j)))
    congr 1
    rw [List.range_succ_eq_map, List.map_cons, List.map_map]
    refine List.cons_eq_cons.mpr ⟨rfl, ?_⟩
    apply List.map_congr_left
    intro j _
    simp only [Function.comp_apply]
    congr 1
    omega

theorem run_sync_package_ok (s : Strategy) (sparql : String) (c u : Bool)
    (k : Nat) (f : Nat → Sample) (hsetup : s.setupOk = true)
    (hcalls : ∀ j, j < k → loopIter s sparql c u j = .ok (f j)) :
    run_sync_package s sparql c u k =
      { setupCalls := 1, teardownCalls := 1,
        result := .ok ((List.range k).map f) } := by
  have hloop := runLoop_ok s sparql c u f k 0 (fun j hj => by
    simpa using hcalls j hj)
  have h0 : (List.range k).map (fun j => f (0 + j)) = (List.range k).map f := by
    apply List.map_congr_left
    intro j _
    simp
  rw [run_sync_package, if_pos hsetup, hloop, h0]

theorem runLoop_update_payload_none (s : Strategy) (sparql : String) (c : Bool) :
    ∀ (n i : Nat) (l : List Sample), runLoop s sparql c true i n = .ok l →
      ∀ x ∈ l, x.1 = none
  | 0, i, l, h => by
    simp only [runLoop] at h
    cases h
    intro x hx
    simp at hx
  | Nat.succ n, i, l, h => by
    rw [runLoop] at h
    revert h
    unfold loopIter
    simp only [if_pos trivial, if_true]
    cases hu : s.update sparql i with
    | error e => intro h; cases h
    | ok elapsed =>
      cases hr : runLoop s sparql c true (i + 1) n with
      | error e => intro h; cases h
      | ok rest =>
        intro h
        cases h
        intro x hx
        rcases List.mem_cons.mp hx with rfl | hx
        · rfl
        · exact runLoop_update_payload_none s sparql c n (i + 1) rest hr x hx

/-! ## Claims about the invocation loops -/

/-- C2 counterexample: with a strategy whose first call raises, the sync and
async invocation loops call `teardown` zero times, not once — the loops of
src/factory.py have no `try`/`finally`, so the claim that `teardown()` is
called exactly once even when a call raises is false. -/
theorem teardown_skipped_on_failure_cex :
    (run_sync_package failStrat "q" false false ITERATIONS_PER_QUERY).teardownCalls = 0 ∧
      (run_async_package failStrat "u" false true ITERATIONS_PER_QUERY).teardownCalls = 0 := by
  constructor <;> rfl

/-- C2 (amended): each invocation-loop execution calls `setup` exactly once,
and calls `teardown` exactly once when setup and all calls succeed — but zero
times when an exception propagates out. -/
theorem setup_teardown_pairing (s : Strategy) (sparql : String) (c u : Bool)
    (k : Nat) :
    (run_sync_package s sparql c u k).setupCalls = 1 ∧
      (run_async_package s sparql c u k).setupCalls = 1 ∧
      (run_sync_package s sparql c u k).teardownCalls =
        (if exOk (run_sync_package s sparql c u k).result then 1 else 0) ∧
      (run_async_package s sparql c u k).teardownCalls =
        (if exOk (run_async_package s sparql c u k).result then 1 else 0) := by
  unfold run_sync_package run_async_package
  by_cases hs : s.setupOk
  · simp only [if_pos hs]
    cases runLoop s sparql c u 0 k <;> simp [exOk]
  · simp only [if_neg hs]
    simp [exOk]

/-- C6: when `setup` succeeds and the `j`-th call returns sample `f j` for
every `j < k`, both invocation loops return exactly the ordered sequence of
the `k` samples in call order. -/
theorem invocation_loop_returns_k_samples (s : Strategy) (sparql : String)
    (c u : Bool) (k : Nat) (f : Nat → Sample) (hsetup : s.setupOk = true)
    (hcalls : ∀ j, j < k → loopIter s sparql c u j = .ok (f j)) :
    (run_sync_package s sparql c u k).result = .ok ((List.range k).map f) ∧
      (run_async_package s sparql c u k).result = .ok ((List.range k).map f) ∧
      ((List.range k).map f).length = k := by
  have hsync := run_sync_package_ok s sparql c u k f hsetup hcalls
  have hasync : run_async_package s sparql c u k = run_sync_package s sparql c u k := rfl
  rw [hasync, hsync]
  exact ⟨rfl, rfl, by simp⟩

/-- Witness for C6 at a concrete input: three successful calls produce the
three samples in order. -/
theorem invocation_loop_returns_k_samples_witness :
    (run_sync_package okStrat "q" false false 3).result =
        .ok ((List.range 3).map (fun _ => ((some [1] : Payload), (1 : ℚ)))) ∧
      (run_async_package okStrat "q" false false 3).result =
        .ok ((List.range 3).map (fun _ => ((some [1] : Payload), (1 : ℚ)))) ∧
      ((List.range 3).map (fun _ => ((some [1] : Payload), (1 : ℚ)))).length = 3 :=
  invocation_loop_returns_k_samples okStrat "q" false false 3
    (fun _ => ((some [1] : Payload), (1 : ℚ))) rfl
    (by intro j _; rfl)

/-- C10: every sample returned by an update-mode invocation loop (sync or
async) has an absent payload, and any record `calculate_result` computes from
such a sample list has `response_size_bytes = 0` — in `run_benchmark` the
update entries are exactly the INSERT/DELETE/UPDATE ones. -/
theorem update_mode_samples_absent (s : Strategy) (sparql : String) (c : Bool)
    (k : Nat) (lib op qn : String) (samples : List Sample) (r : BenchmarkResult)
    (hrun : (run_sync_package s sparql c true k).result = .ok samples ∨
            (run_async_package s sparql c true k).result = .ok samples)
    (hcalc : calculate_result lib op qn samples = some r) :
    (∀ x ∈ samples, x.1 = none) ∧ r.response_size_bytes = 0 := by
  have habs : ∀ x ∈ samples, x.1 = none := by
    have hrun' : (run_sync_package s sparql c true k).result = .ok samples := by
      rcases hrun with h | h
      · exact h
      · exact h
    by_cases hs : s.setupOk
    · cases hl : runLoop s sparql c true 0 k with
      | error e =>
        rw [run_sync_package, if_pos hs, hl] at hrun'
        simp at hrun'
      | ok l =>
        rw [run_sync_package, if_pos hs, hl] at hrun'
        have hls : l = samples := by simpa using hrun'
        subst hls
        exact runLoop_update_payload_none s sparql c k 0 l hl
    · rw [run_sync_package, if_neg hs] at hrun'
      simp at hrun'
  refine ⟨habs, ?_⟩
  obtain ⟨r0, rest, heq, hsum, rfl⟩ := calc_result_some_inv lib op qn samples r hcalc
  have h0 : r0.1 = none := habs r0 (heq ▸ List.mem_cons_self r0 rest)
  simp [h0, bytesTruthy]

/-! ## Helper lemmas about the run scheduler -/

/-- A good invocation outcome: the loop returned a non-empty sample list whose
elapsed times sum to a positive value (so `calculate_result` succeeds on
it). -/
def goodOutcome (o : RunOutcome) : Prop :=
  ∃ samples, o.result = .ok samples ∧ samples ≠ [] ∧
    0 < ((samples.map (fun x => x.2)).sum : ℚ)

/-- Every invocation the scheduler can make yields a good outcome (the
failure-free hypothesis of the spec's counting property). -/
def envAllGood (env : Env) : Prop :=
  ∀ (run : Nat) (pname ename : String) (info : QueryInfo) (c u : Bool),
    goodOutcome (run_sync_package (env.strategyFor run pname ename) info.sparql
      c u ITERATIONS_PER_QUERY) ∧
    goodOutcome (run_async_package (env.strategyFor run pname ename) info.sparql
      c u ITERATIONS_PER_QUERY)

theorem recordFor_ok (run : Nat) (pname ename : String) (info : QueryInfo)
    (samples : List Sample) (hne : samples ≠ [])
    (hsum : 0 < ((samples.map (fun x => x.2)).sum : ℚ)) :
    ∃ l, recordFor run pname ename info samples = .ok l ∧
      l.length = if 0 < run then 1 else 0 := by
  match samples with
  | [] => exact absurd rfl hne
  | s0 :: rest =>
    by_cases hr : 0 < run
    · rw [recordFor, if_pos hr,
        calc_result_cons_of_sum_ne pname info.operation ename s0 rest hsum.ne']
      exact ⟨_, rfl, by simp [hr]⟩
    · exact ⟨[], by rw [recordFor, if_neg hr], by simp [hr]⟩

theorem entryRecords_ok (runPkg : Strategy → String → Bool → Bool → Nat → RunOutcome)
    (env : Env) (run : Nat) (pkg : PackageClass)
    (isConstructOf : QueryInfo → Bool) (is_update : Bool)
    (entries : List (String × QueryInfo))
    (hgood : ∀ (ename : String) (info : QueryInfo) (c u : Bool), goodOutcome
      (runPkg (env.strategyFor run pkg.name ename) info.sparql c u ITERATIONS_PER_QUERY)) :
    ∃ l, entryRecords runPkg env run pkg isConstructOf is_update entries = .ok l ∧
      l.length = if 0 < run then entries.length else 0 := by
  induction entries with
  | nil => exact ⟨[], rfl, by simp⟩
  | cons e rest ih =>
    obtain ⟨ename, info⟩ := e
    obtain ⟨samples, hres, hne, hsum⟩ :=
      hgood ename info (isConstructOf info) is_update
    obtain ⟨here, hrec, hreclen⟩ := recordFor_ok run pkg.name ename info samples hne hsum
    obtain ⟨more, hmore, hmorelen⟩ := ih
    refine ⟨here ++ more, ?_, ?_⟩
    · simp only [entryRecords, hres, hrec, hmore]
    · rw [List.length_append, hreclen, hmorelen]
      by_cases hr : 0 < run
      · simp only [if_pos hr, List.length_cons]
        omega
      · simp [hr]

theorem packageRecords_ok (runPkg : Strategy → String → Bool → Bool → Nat → RunOutcome)
    (env : Env) (run : Nat) (queries updates : List (String × QueryInfo))
    (pkgs : List PackageClass)
    (hgood : ∀ (pname ename : String) (info : QueryInfo) (c u : Bool), goodOutcome
      (runPkg (env.strategyFor run pname ename) info.sparql c u ITERATIONS_PER_QUERY)) :
    ∃ l, packageRecords runPkg env run queries updates pkgs = .ok l ∧
      l.length = pkgs.length *
        (if 0 < run then queries.length + updates.length else 0) := by
  induction pkgs with
  | nil => exact ⟨[], rfl, by simp⟩
  | cons pkg rest ih =>
    obtain ⟨a, ha, halen⟩ := entryRecords_ok runPkg env run pkg
      (fun info => info.operation == "CONSTRUCT") false queries
      (fun ename info c u => hgood pkg.name ename info c u)
    obtain ⟨b, hb, hblen⟩ := entryRecords_ok runPkg env run pkg
      (fun _ => false) true updates
      (fun ename info c u => hgood pkg.name ename info c u)
    obtain ⟨cc, hc, hclen⟩ := ih
    refine ⟨a ++ b ++ cc, ?_, ?_⟩
    · rw [packageRecords, ha, hb, hc]
    · rw [List.length_append, List.length_append, halen, hblen, hclen]
      by_cases hr : 0 < run
      · simp only [if_pos hr, List.length_cons]
        ring
      · simp [hr]

theorem runOnce_ok (env : Env) (queries updates : List (String × QueryInfo))
    (run : Nat) (hgood : envAllGood env)
    (hps : (env.shuffleSync run SYNC_PACKAGES).Perm SYNC_PACKAGES)
    (hpa : (env.shuffleAsync run ASYNC_PACKAGES).Perm ASYNC_PACKAGES) :
    ∃ l, runOnce env queries updates run = .ok l ∧
      l.length = (SYNC_PACKAGES.length + ASYNC_PACKAGES.length) *
        (if 0 < run then queries.length + updates.length else 0) := by
  obtain ⟨s, hs, hslen⟩ := packageRecords_ok run_sync_package env run queries updates
    (env.shuffleSync run SYNC_PACKAGES)
    (fun pname ename info c u => (hgood run pname ename info c u).1)
  obtain ⟨a, ha, halen⟩ := packageRecords_ok run_async_package env run queries updates
    (env.shuffleAsync run ASYNC_PACKAGES)
    (fun pname ename info c u => (hgood run pname ename info c u).2)
  refine ⟨s ++ a, ?_, ?_⟩
  · rw [runOnce, hs, ha]
  · rw [List.length_append, hslen, halen, hps.length_eq, hpa.length_eq]
    ring

theorem runsFrom_ok (env : Env) (queries updates : List (String × QueryInfo))
    (hgood : envAllGood env)
    (hps : ∀ run, (env.shuffleSync run SYNC_PACKAGES).Perm SYNC_PACKAGES)
    (hpa : ∀ run, (env.shuffleAsync run ASYNC_PACKAGES).Perm ASYNC_PACKAGES) :
    ∀ (n start : Nat), 1 ≤ start →
      ∃ l, runsFrom env queries updates start n = .ok l ∧
        l.length = n * ((SYNC_PACKAGES.length + ASYNC_PACKAGES.length) *
          (queries.length + updates.length))
  | 0, start, _ => ⟨[], rfl, by simp⟩
  | Nat.succ n, start, hstart => by
    obtain ⟨here, hhere, hherelen⟩ :=
      runOnce_ok env queries updates start hgood (hps start) (hpa start)
    obtain ⟨rest, hrest, hrestlen⟩ :=
      runsFrom_ok env queries updates hgood hps hpa n (start + 1) (by omega)
    refine ⟨here ++ rest, ?_, ?_⟩
    · rw [runsFrom, hhere, hrest]
    · rw [List.length_append, hherelen, hrestlen,
        if_pos (show 0 < start from hstart), Nat.succ_mul]
      ring

theorem runsFrom_succ (env : Env) (queries updates : List (String × QueryInfo))
    (run n : Nat) :
    runsFrom env queries updates run (n + 1) =
      match runOnce env queries updates run with
      | .error e => .error e
      | .ok here =>
        match runsFrom env queries updates (run + 1) n with
        | .error e => .error e
        | .ok rest => .ok (here ++ rest) := rfl

/-- C4: in a failure-free execution (every invocation good, shuffles are
permutations), the warmup run 0 contributes no records, and the returned list
has exactly `(NUM_RUNS − 1) × (|SYNC_PACKAGES| + |ASYNC_PACKAGES|) ×
(|queries| + |updates|)` records. -/
theorem run_benchmark_record_count (env : Env)
    (queries updates : List (String × QueryInfo)) (hgood : envAllGood env)
    (hps : ∀ run, (env.shuffleSync run SYNC_PACKAGES).Perm SYNC_PACKAGES)
    (hpa : ∀ run, (env.shuffleAsync run ASYNC_PACKAGES).Perm ASYNC_PACKAGES) :
    ∃ rs, run_benchmark env queries updates = .ok rs ∧
      rs.length = (NUM_RUNS - 1) *
        (SYNC_PACKAGES.length + ASYNC_PACKAGES.length) *
        (queries.length + updates.length) ∧
      runOnce env queries updates 0 = .ok [] := by
  obtain ⟨l0, hl0, hl0len⟩ := runOnce_ok env queries updates 0 hgood (hps 0) (hpa 0)
  have hl0nil : l0 = [] := by
    have h0 : l0.length = 0 := by simpa using hl0len
    exact List.length_eq_zero.mp h0
  subst hl0nil
  obtain ⟨l1, hl1, hl1len⟩ :=
    runsFrom_ok env queries updates hgood hps hpa 10 1 (by omega)
  refine ⟨[] ++ l1, ?_, ?_, hl0⟩
  · rw [run_benchmark, show NUM_RUNS = 10 + 1 from rfl, runsFrom_succ, hl0]
    simp only [Nat.zero_add]
    rw [hl1]
  · rw [List.nil_append, hl1len]
    show 10 * _ = (NUM_RUNS - 1) * _ * _
    rw [show NUM_RUNS - 1 = 10 from rfl]
    ring

/-- The all-success environment for the counting witness: every call succeeds
with payload `[1]` and elapsed time `1`, and the shuffles leave the order
unchanged (the identity permutation). -/
def goodEnv : Env where
  strategyFor := fun _ _ _ => okStrat
  shuffleSync := fun _ l => l
  shuffleAsync := fun _ l => l

theorem okStrat_run_eq (sp : String) (c u : Bool) (k : Nat) :
    run_sync_package okStrat sp c u k =
      { setupCalls := 1, teardownCalls := 1,
        result := .ok ((List.range k).map
          (fun _ => if u then ((none : Payload), (1 : ℚ)) else (some [1], 1))) } := by
  apply run_sync_package_ok okStrat sp c u k _ rfl
  intro j _
  cases u <;> rfl

theorem okStrat_good (sp : String) (c u : Bool) (k : Nat) (hk : 0 < k) :
    goodOutcome (run_sync_package okStrat sp c u k) := by
  refine ⟨(List.range k).map
    (fun _ => if u then ((none : Payload), (1 : ℚ)) else (some [1], 1)), ?_, ?_, ?_⟩
  · rw [okStrat_run_eq]
  · have : ((List.range k).map
        (fun _ => if u then ((none : Payload), (1 : ℚ)) else (some [1], 1))).length = k := by
      simp
    intro hnil
    rw [hnil] at this
    simp at this
    omega
  · rw [list_sum_const_rat _ 1 (by
      intro x hx
      simp only [List.map_map, List.mem_map, Function.comp_apply] at hx
      obtain ⟨j, -, rfl⟩ := hx
      cases u <;> rfl)]
    rw [List.length_map, List.length_map, List.length_range, mul_one]
    exact_mod_cast hk

theorem goodEnv_allGood : envAllGood goodEnv := by
  intro run pname ename info c u
  exact ⟨okStrat_good info.sparql c u ITERATIONS_PER_QUERY (by norm_num [ITERATIONS_PER_QUERY]),
    okStrat_good info.sparql c u ITERATIONS_PER_QUERY (by norm_num [ITERATIONS_PER_QUERY])⟩

theorem entryRecords_ok_inv
    (runPkg : Strategy → String → Bool → Bool → Nat → RunOutcome)
    (env : Env) (run : Nat) (pkg : PackageClass)
    (isConstructOf : QueryInfo → Bool) (is_update : Bool) :
    ∀ (entries : List (String × QueryInfo)) (l : List BenchmarkResult),
      entryRecords runPkg env run pkg isConstructOf is_update entries = .ok l →
      ∀ e ∈ entries, ∃ samples,
        (runPkg (env.strategyFor run pkg.name e.1) e.2.sparql (isConstructOf e.2)
          is_update ITERATIONS_PER_QUERY).result = .ok samples
  | [], _, _, e, he => absurd he (List.not_mem_nil e)
  | (ename, info) :: rest, l, h, e, he => by
    rw [entryRecords] at h
    cases hres : (runPkg (env.strategyFor run pkg.name ename) info.sparql
        (isConstructOf info) is_update ITERATIONS_PER_QUERY).result with
    | error err =>
      rw [hres] at h
      simp at h
    | ok samples =>
      rw [hres] at h
      rcases List.mem_cons.mp he with rfl | hmem
      · exact ⟨samples, hres⟩
      · cases hrest : entryRecords runPkg env run pkg isConstructOf is_update rest with
        | error err =>
          rw [hrest] at h
          simp at h
          split at h <;> simp at h
        | ok more =>
          exact entryRecords_ok_inv runPkg env run pkg isConstructOf is_update
            rest more hrest e hmem

theorem packageRecords_ok_inv
    (runPkg : Strategy → String → Bool → Bool → Nat → RunOutcome)
    (env : Env) (run : Nat) (queries updates : List (String × QueryInfo)) :
    ∀ (pkgs : List PackageClass) (l : List BenchmarkResult),
      packageRecords runPkg env run queries updates pkgs = .ok l →
      ∀ pkg ∈ pkgs,
        (∃ lq, entryRecords runPkg env run pkg
          (fun info => info.operation == "CONSTRUCT") false queries = .ok lq) ∧
        (∃ lu, entryRecords runPkg env run pkg
          (fun _ => false) true updates = .ok lu)
  | [], _, _, pkg, hp => absurd hp (List.not_mem_nil pkg)
  | p :: rest, l, h, pkg, hp => by
    rw [packageRecords] at h
    cases ha : entryRecords runPkg env run p
        (fun info => info.operation == "CONSTRUCT") false queries with
    | error err =>
      rw [ha] at h
      simp at h
    | ok a =>
      rw [ha] at h
      cases hb : entryRecords runPkg env run p (fun _ => false) true updates with
      | error err =>
        rw [hb] at h
        simp at h
      | ok b =>
        rw [hb] at h
        cases hc : packageRecords runPkg env run queries updates rest with
        | error err =>
          rw [hc] at h
          simp at h
        | ok cc =>
          rcases List.mem_cons.mp hp with rfl | hmem
          · exact ⟨⟨a, ha⟩, ⟨b, hb⟩⟩
          · exact packageRecords_ok_inv runPkg env run queries updates rest cc hc pkg hmem

theorem runOnce_ok_inv (env : Env) (queries updates : List (String × QueryInfo))
    (run : Nat) (l : List BenchmarkResult)
    (h : runOnce env queries updates run = .ok l) :
    (∃ ls, packageRecords run_sync_package env run queries updates
      (env.shuffleSync run SYNC_PACKAGES) = .ok ls) ∧
    (∃ la, packageRecords run_async_package env run queries updates
      (env.shuffleAsync run ASYNC_PACKAGES) = .ok la) := by
  rw [runOnce] at h
  cases hs : packageRecords run_sync_package env run queries updates
      (env.shuffleSync run SYNC_PACKAGES) with
  | error err => rw [hs] at h; simp at h
  | ok ls =>
    rw [hs] at h
    cases ha : packageRecords run_async_package env run queries updates
        (env.shuffleAsync run ASYNC_PACKAGES) with
    | error err => rw [ha] at h; simp at h
    | ok la => exact ⟨⟨ls, rfl⟩, ⟨la, rfl⟩⟩

theorem runsFrom_ok_inv (env : Env) (queries updates : List (String × QueryInfo)) :
    ∀ (n start : Nat) (l : List BenchmarkResult),
      runsFrom env queries updates start n = .ok l →
      ∀ j, j < n → ∃ lj, runOnce env queries updates (start + j) = .ok lj
  | 0, _, _, _, j, hj => absurd hj (Nat.not_lt_zero j)
  | Nat.succ n, start, l, h, j, hj => by
    rw [runsFrom] at h
    cases h0 : runOnce env queries updates start with
    | error err => rw [h0] at h; simp at h
    | ok here =>
      rw [h0] at h
      cases h1 : runsFrom env queries updates (start + 1) n with
      | error err => rw [h1] at h; simp at h
      | ok rest =>
        match j with
        | 0 => exact ⟨here, by simpa using h0⟩
        | Nat.succ j =>
          have := runsFrom_ok_inv env queries updates n (start + 1) rest h1 j
            (Nat.lt_of_succ_lt_succ hj)
          obtain ⟨lj, hlj⟩ := this
          refine ⟨lj, ?_⟩
          have harith : start + 1 + j = start + (j + 1) := by omega
          rwa [harith] at hlj

/-- A scheduled invocation that fails: some run below `NUM_RUNS`, some package
in that run's shuffled sync or async list, and some catalog entry whose
invocation result is a raised exception rather than a sample list. -/
def someCallFails (env : Env) (queries updates : List (String × QueryInfo)) : Prop :=
  ∃ run, run < NUM_RUNS ∧
    ((∃ pkg ∈ env.shuffleSync run SYNC_PACKAGES,
        (∃ e ∈ queries, ∀ samples,
          (run_sync_package (env.strategyFor run pkg.name e.1) e.2.sparql
            (e.2.operation == "CONSTRUCT") false ITERATIONS_PER_QUERY).result ≠
              .ok samples) ∨
        (∃ e ∈ updates, ∀ samples,
          (run_sync_package (env.strategyFor run pkg.name e.1) e.2.sparql
            false true ITERATIONS_PER_QUERY).result ≠ .ok samples)) ∨
     (∃ pkg ∈ env.shuffleAsync run ASYNC_PACKAGES,
        (∃ e ∈ queries, ∀ samples,
          (run_async_package (env.strategyFor run pkg.name e.1) e.2.sparql
            (e.2.operation == "CONSTRUCT") false ITERATIONS_PER_QUERY).result ≠
              .ok samples) ∨
        (∃ e ∈ updates, ∀ samples,
          (run_async_package (env.strategyFor run pkg.name e.1) e.2.sparql
            false true ITERATIONS_PER_QUERY).result ≠ .ok samples)))

/-- The environment for the C3 counterexample: every strategy instance fails
on entry `q1` and succeeds on every other entry; shuffles are the identity. -/
def cexEnv : Env where
  strategyFor := fun _ _ ename => if ename == "q1" then failStrat else okStrat
  shuffleSync := fun _ l => l
  shuffleAsync := fun _ l => l

/-- The two-entry catalog for the C3 counterexample. -/
def cexQueries : List (String × QueryInfo) :=
  [("q1", { operation := "SELECT", sparql := "s1" }),
   ("q2", { operation := "SELECT", sparql := "s2" })]

/-- C3 counterexample: with two query entries where every strategy fails on
`q1` but succeeds on `q2` (second conjunct), the claim predicts the scheduler
skips `q1`'s record and continues, emitting records for `q2` on the non-warmup
runs; instead `run_benchmark` propagates the exception and returns an error —
no result list and no records for any entry. -/
theorem benchmark_abort_cex :
    run_benchmark cexEnv cexQueries [] = .error .exn ∧
      exOk (run_sync_package (cexEnv.strategyFor 0 HttpxSyncPackage.name "q2")
        "s2" false false ITERATIONS_PER_QUERY).result = true := ⟨rfl, rfl⟩

/-- C3 (amended): when a call inside the Invocation Loop fails for a scheduled
(strategy, entry) pair, no SummaryRecord is emitted for that triple, but the
benchmark does not continue with the next entry: the exception propagates out
of `run_benchmark`, aborting the remaining entries, strategies and runs, and
no record list is returned at all. -/
theorem run_benchmark_aborts_on_failure (env : Env)
    (queries updates : List (String × QueryInfo))
    (h : someCallFails env queries updates) :
    run_benchmark env queries updates = .error .exn := by
  cases hb : run_benchmark env queries updates with
  | error e => cases e; rfl
  | ok rs =>
    exfalso
    obtain ⟨run, hrun, hcase⟩ := h
    have hb' : runsFrom env queries updates 0 NUM_RUNS = .ok rs := hb
    obtain ⟨lr, hlr⟩ := runsFrom_ok_inv env queries updates NUM_RUNS 0 rs hb' run hrun
    rw [Nat.zero_add] at hlr
    obtain ⟨⟨ls, hls⟩, ⟨la, hla⟩⟩ := runOnce_ok_inv env queries updates run lr hlr
    rcases hcase with ⟨pkg, hpkg, hqs⟩ | ⟨pkg, hpkg, hqs⟩
    · obtain ⟨hq, hu⟩ := packageRecords_ok_inv run_sync_package env run queries
        updates (env.shuffleSync run SYNC_PACKAGES) ls hls pkg hpkg
      rcases hqs with ⟨e, he, hfail⟩ | ⟨e, he, hfail⟩
      · obtain ⟨lq, hlq⟩ := hq
        obtain ⟨samples, hsm⟩ := entryRecords_ok_inv run_sync_package env run pkg
          (fun info => info.operation == "CONSTRUCT") false queries lq hlq e he
        exact hfail samples hsm
      · obtain ⟨lu, hlu⟩ := hu
        obtain ⟨samples, hsm⟩ := entryRecords_ok_inv run_sync_package env run pkg
          (fun _ => false) true updates lu hlu e he
        exact hfail samples hsm
    · obtain ⟨hq, hu⟩ := packageRecords_ok_inv run_async_package env run queries
        updates (env.shuffleAsync run ASYNC_PACKAGES) la hla pkg hpkg
      rcases hqs with ⟨e, he, hfail⟩ | ⟨e, he, hfail⟩
      · obtain ⟨lq, hlq⟩ := hq
        obtain ⟨samples, hsm⟩ := entryRecords_ok_inv run_async_package env run pkg
          (fun info => info.operation == "CONSTRUCT") false queries lq hlq e he
        exact hfail samples hsm
      · obtain ⟨lu, hlu⟩ := hu
        obtain ⟨samples, hsm⟩ := entryRecords_ok_inv run_async_package env run pkg
          (fun _ => false) true updates lu hlu e he
        exact hfail samples hsm

/-- Witness for C3 (amended) at the concrete counterexample environment. -/
theorem run_benchmark_aborts_on_failure_witness :
    run_benchmark cexEnv cexQueries [] = .error .exn :=
  run_benchmark_aborts_on_failure cexEnv cexQueries []
    ⟨0, by norm_num [NUM_RUNS],
      Or.inl ⟨HttpxSyncPackage, by simp [cexEnv, SYNC_PACKAGES],
        Or.inl ⟨("q1", { operation := "SELECT", sparql := "s1" }),
          by simp [cexQueries],
          fun samples hsm => Except.noConfusion
            (show (Except.error Err.exn : Except Err (List Sample)) = .ok samples
              from hsm)⟩⟩⟩

/-- Witness for C4 on the concrete catalog: the all-success environment over
the real `QUERIES` and `UPDATES` yields the stated count and an empty warmup
contribution. -/
theorem run_benchmark_record_count_witness :
    ∃ rs, run_benchmark goodEnv QUERIES UPDATES = .ok rs ∧
      rs.length = (NUM_RUNS - 1) *
        (SYNC_PACKAGES.length + ASYNC_PACKAGES.length) *
        (QUERIES.length + UPDATES.length) ∧
      runOnce goodEnv QUERIES UPDATES 0 = .ok [] :=
  run_benchmark_record_count goodEnv QUERIES UPDATES goodEnv_allGood
    (fun _ => List.Perm.refl _) (fun _ => List.Perm.refl _)

/-- Witness for C10 at a concrete input: two update-mode calls give
`[(none, 1), (none, 1)]` and the resulting INSERT record has
`response_size_bytes = 0`. -/
theorem update_mode_samples_absent_witness :
    (∀ x ∈ ([(none, 1), (none, 1)] : List Sample), x.1 = none) ∧
      ({ library := "l", operation := "INSERT", query_name := "insert_data",
         requests_per_sec := 1, total_time := 2, avg_request_time := 1,
         response_size_bytes := 0, success_rate := 1 } : BenchmarkResult).response_size_bytes = 0 :=
  update_mode_samples_absent okStrat "u" false 2 "l" "INSERT" "insert_data"
    [(none, 1), (none, 1)] _ (Or.inl rfl)
    (by rw [calc_result_cons_of_sum_ne "l" "INSERT" "insert_data" (none, 1) [(none, 1)]
          (by norm_num)]
        norm_num [bytesTruthy])

end Bench
